import Mathlib

/-!
Verification of the distributed vector-search coordinator (proxy search task)
of this repository.

The proxy implementation file that holds `reduceSearchResultData`,
`selectHighestScoreIndex`, `checkSearchResultData`, `parseQueryInfo`,
`checkIfLoaded`, `searchTask.Execute` and `searchTask.PostExecute` is not part
of the source tree here; only its test file (`src/unnamed/part_000`,
package `proxy`) is.  Those operations are therefore modelled from the
specification, reconciled with the concrete behavior pinned by the tests in
the source tree.  `IsCollectionNotExistError` is embedded directly from
`src/internal/common/error.go`.

Scores (float32 in the source) are modelled as rationals: every score
literal appearing in the spec and in the tests is exactly representable and
only order, negation and equality of scores matter to the merge.
-/

namespace MilvusProxy

/-- Subset of `commonpb.ErrorCode` used by the spec and the source slice. -/
inductive ErrorCode where
  | Success
  | UnexpectedError
  | NotShardLeader
  | CollectionNotExists
  | CollectionNotLoaded
deriving DecidableEq, Inhabited

/-- A primary-key value: the element type of `schemapb.IDs`, either an int64
or a string (spec §9: tagged sum type `ID = Int64(i64) | Str(string)`). -/
inductive PK where
  | intPK (v : Int)
  | strPK (v : String)
deriving DecidableEq, Inhabited

/-- `schemapb.IDs`: a homogeneous id sequence, int64 variant or string
variant. -/
inductive IDs where
  | intId (data : List Int)
  | strId (data : List String)
deriving DecidableEq, Inhabited

/-- Size of the active variant of an `IDs` value
(`typeutil.GetSizeOfIDs`). -/
def IDs.size : IDs → Nat
  | .intId l => l.length
  | .strId l => l.length

/-- Read the primary key at a flat index (`typeutil.GetPK`). -/
def getPK (ids : IDs) (idx : Nat) : PK :=
  match ids with
  | .intId l => .intPK (l.getD idx 0)
  | .strId l => .strPK (l.getD idx "")

/-- The declared primary-key data type of a merge
(`schemapb.DataType_Int64` / `schemapb.DataType_VarChar`). -/
inductive PKType where
  | int64Type
  | varCharType
deriving DecidableEq, Inhabited

/-- Whether the active variant of an `IDs` value agrees with the declared
primary-key type. -/
def IDs.matchesType : IDs → PKType → Bool
  | .intId _, .int64Type => true
  | .strId _, .varCharType => true
  | _, _ => false

/-- `schemapb.SearchResultData`: one partial result's payload, and also the
shape of the merged payload (spec §3: MergedResult has the same shape as one
PartialResult). -/
structure SearchResultData where
  numQueries : Int
  topK : Int
  ids : IDs
  scores : List Rat
  topks : List Int
deriving DecidableEq, Inhabited

instance {ε α : Type} [DecidableEq ε] [DecidableEq α] : DecidableEq (Except ε α) := fun a b =>
  match a, b with
  | .error x, .error y =>
    if h : x = y then isTrue (by rw [h]) else isFalse (fun c => h (by cases c; rfl))
  | .ok x, .ok y =>
    if h : x = y then isTrue (by rw [h]) else isFalse (fun c => h (by cases c; rfl))
  | .error _, .ok _ => isFalse (fun c => by cases c)
  | .ok _, .error _ => isFalse (fun c => by cases c)

/-- Modelled from the spec: `checkSearchResultData` (Result Decoder, §4.D) of
the missing proxy task file.  It verifies a partial result's shape against
the declared `(nq, topK)`: `numQueries`, `topK`, the id count of the active
variant and the score count.  `Test_checkSearchResultData` pins that the
`topks` field is not validated: its "correct params" case passes a payload
whose `topks` is empty while `nq = 1` and expects no error. -/
def checkSearchResultData (data : SearchResultData) (nq topk : Int) : Except String Unit :=
  if data.numQueries ≠ nq then .error "search result numQueries mismatch"
  else if data.topK ≠ topk then .error "search result topk mismatch"
  else if (data.ids.size : Int) ≠ nq * topk then .error "search result id size mismatch"
  else if (data.scores.length : Int) ≠ nq * topk then .error "search result score size mismatch"
  else .ok ()

/-- Offset into a partial result's flat `(ids, scores)` arrays of the `q`-th
query block: prefix sum of `topks` over queries `0..q-1` (spec §4.E step 2;
`subSearchNqOffset` in the source's test). -/
def nqOffsetAt (r : SearchResultData) (q : Nat) : Nat :=
  ((r.topks.take q).map Int.toNat).sum

/-- Number of rows the partial result `r` holds for query `q`
(`topks[q]`). -/
def blockSize (r : SearchResultData) (q : Nat) : Nat :=
  (r.topks.getD q 0).toNat

/-- Modelled from the spec: `selectHighestScoreIndex` of the missing proxy
task file (spec §4.E step 4).  Among the partials whose cursor has not
exhausted their `q`-th block, select the one holding the highest score at
its cursor; ties break toward the smaller partial index (strict comparison,
first maximum wins, as pinned by `TestTaskSearch_selectHighestScoreIndex`).
Returns the partial's index and the flat data index, or `none` when every
partial is exhausted for query `q`. -/
def selectHighestScoreIndex (data : List SearchResultData) (cursors : List Nat) (q : Nat) : Option (Nat × Nat) :=
  ((List.range data.length).foldl (fun best i =>
    let r := data.getD i default
    let c := cursors.getD i 0
    if c < blockSize r q then
      let sIdx := nqOffsetAt r q + c
      let s := r.scores.getD sIdx 0
      match best with
      | none => some (i, sIdx, s)
      | some (bi, bIdx, bs) => if bs.blt s then some (i, sIdx, s) else some (bi, bIdx, bs)
    else best) none).map (fun b => (b.1, b.2.1))

/-- Modelled from the spec: the per-query merge loop of
`reduceSearchResultData` (spec §4.E steps 1-4).  Repeatedly select the best
remaining candidate; a candidate whose id was already emitted for this query
only advances that partial's cursor (dedup); otherwise the `(id, score)`
pair is emitted.  One cursor advances per step, so a fuel of the total row
count of query `q` runs the loop to exhaustion. -/
def mergeLoop (data : List SearchResultData) (q : Nat) : Nat → List Nat → List PK → List (PK × Rat)
  | 0, _, _ => []
  | fuel + 1, cursors, seen =>
    match selectHighestScoreIndex data cursors q with
    | none => []
    | some (i, sIdx) =>
      let id := getPK (data.getD i default).ids sIdx
      let s := (data.getD i default).scores.getD sIdx 0
      let cursors' := cursors.set i (cursors.getD i 0 + 1)
      if id ∈ seen then mergeLoop data q fuel cursors' seen
      else (id, s) :: mergeLoop data q fuel cursors' (id :: seen)

/-- Total number of rows the partials hold for query `q`
(`Σᵢ topksᵢ[q]`). -/
def totalRows (data : List SearchResultData) (q : Nat) : Nat :=
  (data.map (fun r => blockSize r q)).sum

/-- The full deduplicated best-first candidate stream for query `q`. -/
def mergeStream (data : List SearchResultData) (q : Nat) : List (PK × Rat) :=
  mergeLoop data q (totalRows data q) (List.replicate data.length 0) []

/-- Modelled from the spec: the rows `reduceSearchResultData` keeps for query
`q`.  The loop emits up to `topk` deduplicated rows (the emission window, as
pinned by the "Offset limit" cases of `TestTaskSearch_reduceSearchResultData`)
and the first `offset` of them are discarded (spec §4.E step 5). -/
def retainedRows (data : List SearchResultData) (q topk offset : Nat) : List (PK × Rat) :=
  ((mergeStream data q).take topk).drop offset

/-- Distance-like metrics, where smaller is better (spec §4.E): for these the
merged scores are negated on write. -/
def isDistanceMetric (metricType : String) : Bool :=
  metricType == "L2" || metricType == "HAMMING" || metricType == "JACCARD" || metricType == "TANIMOTO"

/-- Rebuild the homogeneous `IDs` variant of the merged result from the
emitted primary keys. -/
def buildIds (pkType : PKType) (pks : List PK) : IDs :=
  match pkType with
  | .int64Type => .intId (pks.map (fun pk => match pk with | .intPK v => v | .strPK _ => 0))
  | .varCharType => .strId (pks.map (fun pk => match pk with | .strPK v => v | .intPK _ => ""))

/-- The merged per-query retained counts (the `topks` of the merged
result). -/
def mergedTopks (data : List SearchResultData) (nq topk offset : Nat) : List Int :=
  (List.range nq).map (fun q => ((retainedRows data q topk offset).length : Int))

/-- The merged rows of every query, concatenated (spec §4.E step 8). -/
def mergedRows (data : List SearchResultData) (nq topk offset : Nat) : List (PK × Rat) :=
  ((List.range nq).map (fun q => retainedRows data q topk offset)).flatten

/-- Modelled from the spec: `reduceSearchResultData` of the missing proxy
task file (Merger, spec §4.E).  Per query it performs the metric-aware
k-way merge with deduplication, keeps the emission window of `topk` rows
minus the first `offset` of them, and concatenates the per-query outputs
into flat `ids`, `scores` and `topks`.  For distance-like metrics the
written scores are negated (the stored partial scores are already in the
maximize convention, as pinned by `TestTaskSearch_reduceSearchResultData`
and spec scenario S1).  The returned `topK` is the retained count of the
last query (`realTopK`).  An id-variant mismatch with the declared
primary-key type is a hard error (spec §4.E edge cases). -/
def reduceSearchResultData (data : List SearchResultData) (nq topk : Nat) (metricType : String) (pkType : PKType) (offset : Nat) : Except String SearchResultData :=
  if data.all (fun r => r.ids.matchesType pkType) then
    .ok {
      numQueries := nq
      topK := (mergedTopks data nq topk offset).getD (nq - 1) 0
      ids := buildIds pkType ((mergedRows data nq topk offset).map Prod.fst)
      scores :=
        if isDistanceMetric metricType then
          (mergedRows data nq topk offset).map (fun row => -row.2)
        else
          (mergedRows data nq topk offset).map (fun row => row.2)
      topks := mergedTopks data nq topk offset }
  else .error "unsupported pk type"

/-- Outcome of one sub-search RPC as observed by the per-shard callback:
either a transport error or a reply carrying a status code. -/
inductive SubSearchOutcome where
  | transportFailure (msg : String)
  | reply (code : ErrorCode)
deriving DecidableEq, Inhabited

/-- An error surfaced by the dispatch layer of `searchTask.Execute`: the
sentinel `errInvalidShardLeaders`, or an ordinary (non-sentinel) error. -/
inductive ExecError where
  | invalidShardLeaders
  | genericFailure (msg : String)
deriving DecidableEq

/-- Modelled from the spec: the per-shard callback of the missing proxy task
file (`searchShard`, spec §4.C).  A transport error fails as-is; a reply
with status `NotShardLeader` maps to the sentinel `errInvalidShardLeaders`;
any other non-success status maps to an ordinary error; a success reply
contributes its partial result. -/
def searchShardOutcome (o : SubSearchOutcome) : Except ExecError Unit :=
  match o with
  | .transportFailure m => .error (.genericFailure m)
  | .reply c =>
    if c = .NotShardLeader then .error .invalidShardLeaders
    else if c = .Success then .ok ()
    else .error (.genericFailure "fail to search on QueryNode")

/-- One dispatch round over all selected shard leaders: fails with the first
failing shard's error, succeeds when every shard succeeded. -/
def dispatchOnce (outcomes : List SubSearchOutcome) : Except ExecError Unit :=
  match outcomes.findSome? (fun o =>
    match searchShardOutcome o with
    | .error e => some e
    | .ok _ => none) with
  | some e => .error e
  | none => .ok ()

/-- Modelled from the spec: the retry structure of `searchTask.Execute` of
the missing proxy task file (spec §4.C retry rules, §7).  Dispatch once;
only when the result is the sentinel `errInvalidShardLeaders` is the
shard-leader map refreshed and the dispatch re-entered, exactly once, and
that second result is returned as-is (a second `NotShardLeader` is thus
terminal).  `attempts k` gives the sub-search outcomes of round `k`; the
second component of the result counts the dispatch rounds taken. -/
def executeDispatch (attempts : Nat → List SubSearchOutcome) : Except ExecError Unit × Nat :=
  match dispatchOnce (attempts 0) with
  | .error .invalidShardLeaders => (dispatchOnce (attempts 1), 2)
  | r => (r, 1)

/-- Search-parameter keys of the proxy (`task.go` constants). -/
def TopKKey : String := "topk"

def OffsetKey : String := "offset"

def MetricTypeKey : String := "metric_type"

def SearchParamsKey : String := "params"

def RoundDecimalKey : String := "round_decimal"

def AnnsFieldKey : String := "anns_field"

/-- `funcutil.GetAttrByKeyFromRepeatedKV`: the value of the first pair
carrying the given key. -/
def getAttrByKey (key : String) (params : List (String × String)) : Option String :=
  (params.find? (fun p => p.1 == key)).map (fun p => p.2)

/-- `planpb.QueryInfo` as produced by `parseQueryInfo`. -/
structure QueryInfo where
  topk : Int
  metricType : String
  searchParams : String
  roundDecimal : Int
deriving DecidableEq

/-- Helper of `parseInt?`: accumulate decimal digits, failing on any
non-digit character. -/
def parseDigits : List Char → Nat → Option Nat
  | [], acc => some acc
  | c :: cs, acc =>
    if c.isDigit then parseDigits cs (acc * 10 + (c.toNat - 48)) else none

/-- Decimal integer parser over the string's characters, modelling the
`strconv.ParseInt` calls of `parseQueryInfo`: an optional sign followed by
at least one digit and nothing else. -/
def parseInt? (s : String) : Option Int :=
  match s.data with
  | [] => none
  | '-' :: cs => if cs.isEmpty then none else (parseDigits cs 0).map (fun n => -(n : Int))
  | '+' :: cs => if cs.isEmpty then none else (parseDigits cs 0).map (fun n => (n : Int))
  | cs => (parseDigits cs 0).map (fun n => (n : Int))

/-- Modelled from the spec: topk extraction of `parseQueryInfo` — required,
integer, within `[1, 16384]` (spec §4.A step 5). -/
def parseTopK (sp : List (String × String)) : Except String Int :=
  match getAttrByKey TopKKey sp with
  | none => .error "topk not found in search params"
  | some s =>
    match parseInt? s with
    | none => .error "topk is invalid"
    | some t => if t < 1 ∨ 16384 < t then .error "topk out of range" else .ok t

/-- Modelled from the spec: offset extraction of `parseQueryInfo` — optional
with default 0, integer, non-negative (spec §4.A step 5). -/
def parseOffset (sp : List (String × String)) : Except String Int :=
  match getAttrByKey OffsetKey sp with
  | none => .ok 0
  | some s =>
    match parseInt? s with
    | none => .error "offset is invalid"
    | some o => if o < 0 then .error "offset out of range" else .ok o

/-- Modelled from the spec: round-decimal extraction of `parseQueryInfo` —
optional with default `-1` (no rounding), integer, `-1` or within `[0, 6]`
(spec §4.A step 5). -/
def parseRoundDecimal (sp : List (String × String)) : Except String Int :=
  match parseInt? ((getAttrByKey RoundDecimalKey sp).getD "-1") with
  | none => .error "round_decimal is invalid"
  | some rd =>
    if rd ≠ -1 ∧ (6 < rd ∨ rd < 0) then .error "round_decimal out of range" else .ok rd

/-- Modelled from the spec: `parseQueryInfo` of the missing proxy task file
(Request Validator, spec §4.A step 5).  Bound-checks `topk`, `offset` and
`offset + topk ≤ 16384`, requires `metric_type` and `params`, bound-checks
`round_decimal`; on success it returns the query info — whose `topk` field
carries `topk + offset`, the emission window handed to the merger — together
with the supplied offset.  The Go function returns `(nil, 0, err)` on every
rejection path, modelled by the `Except.error` branch; it performs no RPC. -/
def parseQueryInfo (sp : List (String × String)) : Except String (QueryInfo × Int) :=
  match parseTopK sp with
  | .error e => .error e
  | .ok topk =>
    match parseOffset sp with
    | .error e => .error e
    | .ok offset =>
      if 16384 < topk + offset then .error "topk plus offset out of range"
      else
        match getAttrByKey MetricTypeKey sp with
        | none => .error "metric_type not found in search params"
        | some metricType =>
          match getAttrByKey SearchParamsKey sp with
          | none => .error "search params not found"
          | some searchParams =>
            match parseRoundDecimal sp with
            | .error e => .error e
            | .ok rd =>
              .ok ({ topk := topk + offset, metricType := metricType,
                     searchParams := searchParams, roundDecimal := rd }, offset)

/-- The rejection conditions named by the claim over `parseQueryInfo`'s
input: `topk` missing, non-integer or outside `[1, 16384]`; `offset`
non-integer or negative; `offset + topk` exceeding 16384; `round_decimal`
non-integer or outside `[-1, 6]`. -/
def BadSearchParams (sp : List (String × String)) : Prop :=
  getAttrByKey TopKKey sp = none ∨
  (∃ s, getAttrByKey TopKKey sp = some s ∧ parseInt? s = none) ∨
  (∃ s t, getAttrByKey TopKKey sp = some s ∧ parseInt? s = some t ∧ (t < 1 ∨ 16384 < t)) ∨
  (∃ s, getAttrByKey OffsetKey sp = some s ∧ parseInt? s = none) ∨
  (∃ s o, getAttrByKey OffsetKey sp = some s ∧ parseInt? s = some o ∧ o < 0) ∨
  (∃ s u t o, getAttrByKey TopKKey sp = some s ∧ parseInt? s = some t ∧
    getAttrByKey OffsetKey sp = some u ∧ parseInt? u = some o ∧ 16384 < t + o) ∨
  (∃ s, getAttrByKey RoundDecimalKey sp = some s ∧ parseInt? s = none) ∨
  (∃ s rd, getAttrByKey RoundDecimalKey sp = some s ∧ parseInt? s = some rd ∧
    rd ≠ -1 ∧ (6 < rd ∨ rd < 0))

/-- The algorithm-parameter JSON of `getValidSearchParams` in the source's
test. -/
def nprobeParams : String := "\x7b\"nprobe\": 10\x7d"

/-- The valid search-parameter list of `TestTaskSearch_parseQueryInfo`
("parseQueryInfo no error"): `getValidSearchParams` plus `offset = 200`. -/
def validSearchParamsOffset200 : List (String × String) :=
  [(AnnsFieldKey, "fvec"), (TopKKey, "10"), (MetricTypeKey, "L2"),
   (SearchParamsKey, nprobeParams), (RoundDecimalKey, "-1"), (OffsetKey, "200")]

/-- The `spNoTopk` parameter list of `TestTaskSearch_parseQueryInfo`. -/
def spNoTopk : List (String × String) := [(AnnsFieldKey, "fvec")]

/-- Cached collection information (`collectionInfo` of the metadata
cache). -/
structure CollectionInfo where
  isLoaded : Bool
deriving DecidableEq, Inhabited

/-- `querypb.ShowPartitionsResponse` as consumed by `checkIfLoaded`. -/
structure ShowPartitionsResponse where
  status : ErrorCode
  reason : String
  partitionIDs : List Int
  inMemoryPercentages : List Int
deriving DecidableEq, Inhabited

/-- Partitions the coordinator reports as loaded: those whose in-memory
percentage is 100. -/
def loadedPartitions (resp : ShowPartitionsResponse) : List Int :=
  (resp.partitionIDs.zip resp.inMemoryPercentages).filterMap
    (fun p => if p.2 = 100 then some p.1 else none)

/-- Partitions the coordinator reports as not fully loaded. -/
def unloadedPartitions (resp : ShowPartitionsResponse) : List Int :=
  (resp.partitionIDs.zip resp.inMemoryPercentages).filterMap
    (fun p => if p.2 = 100 then none else some p.1)

/-- Modelled from the spec: `checkIfLoaded` of the missing proxy task file
(Load Checker, spec §4.B).  The metadata-cache lookup and the coordinator's
`ShowPartitions` reply are passed as explicit inputs (the RPC environment of
the stateful code).  Cached `isLoaded` short-circuits to true without RPC.
A failed lookup or RPC, or a non-success reply status, is an error.  With
named partitions every in-memory percentage must equal 100.  With no named
partitions (the whole collection) the spec requires at least one loaded
partition and no unloaded partitions; anything else is `false` without
error (`Test_checkIfLoaded`: a successful reply listing partitions with no
100% in-memory percentages yields `(false, nil)`). -/
def checkIfLoaded (info : Except String CollectionInfo)
    (showPartitions : Except String ShowPartitionsResponse)
    (searchPartitionIDs : List Int) : Except String Bool :=
  match info with
  | .error _ => .error "GetCollectionInfo failed"
  | .ok i =>
    if i.isLoaded then .ok true
    else
      match showPartitions with
      | .error _ => .error "showPartitions failed"
      | .ok resp =>
        if resp.status ≠ .Success then .error "showPartitions not successful"
        else if 0 < searchPartitionIDs.length then
          .ok (resp.inMemoryPercentages.all (fun p => p == 100))
        else
          .ok (!(loadedPartitions resp).isEmpty && (unloadedPartitions resp).isEmpty)

/-- `internalpb.SearchResults`, one collected sub-search result: its status
and an optional decoded payload (`none` models a nil/empty serialized
blob). -/
structure SearchResults where
  status : ErrorCode
  slicedBlob : Option SearchResultData
deriving DecidableEq, Inhabited

/-- Modelled from the spec: the decode step of `searchTask.PostExecute`
(Result Decoder, spec §4.D): partial results whose blob is empty/nil are
silently dropped. -/
def decodeSearchResults (results : List SearchResults) : List SearchResultData :=
  results.filterMap (fun r => r.slicedBlob)

/-- The well-formed empty payload produced when every partial result was
empty (`fillInEmptyResult`): `topK = 0`, `topks = [0, …, 0]`. -/
def emptySearchResultData (nq : Nat) : SearchResultData :=
  { numQueries := nq, topK := 0, ids := .intId [], scores := [],
    topks := List.replicate nq 0 }

/-- The user-visible search result (`milvuspb.SearchResults`): a status plus
the merged payload. -/
structure MilvusSearchResults where
  status : ErrorCode
  results : SearchResultData
deriving DecidableEq, Inhabited

/-- Modelled from the spec: the result assembly of `searchTask.PostExecute`
of the missing proxy task file.  Decode the collected partial results
(dropping empty blobs); when nothing remains, succeed with status `Success`
and the well-formed empty payload; otherwise merge and wrap the merged
payload with status `Success`. -/
def postExecuteResult (collected : List SearchResults) (nq topk : Nat)
    (metricType : String) (pkType : PKType) (offset : Nat) :
    Except String MilvusSearchResults :=
  let valid := decodeSearchResults collected
  if valid.isEmpty then
    .ok { status := .Success, results := emptySearchResultData nq }
  else
    match reduceSearchResultData valid nq topk metricType pkType offset with
    | .error e => .error e
    | .ok r => .ok { status := .Success, results := r }

/-- Partial result P1 of spec scenario S1 (`nq = 1`, `topK = 4`). -/
def partialS1P1 : SearchResultData :=
  { numQueries := 1, topK := 4, ids := .intId [11, 9, 8, 5],
    scores := [Rat.divInt 11 10, Rat.divInt 9 10, Rat.divInt 4 5, Rat.divInt 1 2],
    topks := [4] }

/-- Partial result P2 of spec scenario S1 (`nq = 1`, `topK = 4`). -/
def partialS1P2 : SearchResultData :=
  { numQueries := 1, topK := 4, ids := .intId [12, 10, 7, 6],
    scores := [Rat.divInt 6 5, 1, Rat.divInt 7 10, Rat.divInt 1 2],
    topks := [4] }

/-- The merged result the spec expects for scenario S1
(`topK = 4`, `offset = 0`, metric L2). -/
def mergedS1 : SearchResultData :=
  { numQueries := 1, topK := 4, ids := .intId [12, 11, 10, 9],
    scores := [Rat.divInt (-6) 5, Rat.divInt (-11) 10, -1, Rat.divInt (-9) 10],
    topks := [4] }

/-- The "correct params" payload of `Test_checkSearchResultData`: its
`topks` field is left empty while `nq = 1`. -/
def topksFreePayload : SearchResultData :=
  { numQueries := 1, topK := 1, ids := .intId [1], scores := [Rat.divInt 99 100],
    topks := [] }

end MilvusProxy

namespace MilvusCommon

open MilvusProxy (ErrorCode)

/-- A Go `error` value as seen by `IsCollectionNotExistError`
(`src/internal/common/error.go`): either a `*statusError` wrapping a
`commonpb.Status`, or any other error value. -/
inductive GoError where
  | statusErr (code : ErrorCode) (reason : String)
  | otherErr (msg : String)
deriving DecidableEq

/-- `collectionNotExistCodes` from `src/internal/common/error.go`. -/
def collectionNotExistCodes : List ErrorCode :=
  [.UnexpectedError, .CollectionNotExists]

/-- `IsCollectionNotExistError` from `src/internal/common/error.go`: type
assertion to `*statusError`, then a linear scan of
`collectionNotExistCodes`. -/
def IsCollectionNotExistError (e : GoError) : Bool :=
  match e with
  | .statusErr code _ => collectionNotExistCodes.contains code
  | .otherErr _ => false

end MilvusCommon

namespace MilvusProxy

/-- The merge loop emits at most `fuel` rows. -/
theorem mergeLoop_length_le (data : List SearchResultData) (q : Nat) :
    ∀ fuel cursors seen, (mergeLoop data q fuel cursors seen).length ≤ fuel := by
  intro fuel
  induction fuel with
  | zero => intro cursors seen; simp [mergeLoop]
  | succ n ih =>
    intro cursors seen
    rw [mergeLoop]
    cases hsel : selectHighestScoreIndex data cursors q with
    | none => simp
    | some p =>
      obtain ⟨i, sIdx⟩ := p
      simp only []
      by_cases hmem : getPK (data.getD i default).ids sIdx ∈ seen
      · simp only [if_pos hmem]
        exact Nat.le_succ_of_le (ih _ _)
      · simp only [if_neg hmem, List.length_cons]
        exact Nat.succ_le_succ (ih _ _)

/-- The merge loop never emits an id from the seen-set, and the emitted ids
are pairwise distinct. -/
theorem mergeLoop_nodup (data : List SearchResultData) (q : Nat) :
    ∀ fuel cursors seen, ((mergeLoop data q fuel cursors seen).map Prod.fst).Nodup ∧
      ∀ pk ∈ (mergeLoop data q fuel cursors seen).map Prod.fst, pk ∉ seen := by
  intro fuel
  induction fuel with
  | zero => intro cursors seen; simp [mergeLoop]
  | succ n ih =>
    intro cursors seen
    rw [mergeLoop]
    cases hsel : selectHighestScoreIndex data cursors q with
    | none => simp
    | some p =>
      obtain ⟨i, sIdx⟩ := p
      simp only []
      by_cases hmem : getPK (data.getD i default).ids sIdx ∈ seen
      · simp only [if_pos hmem]
        exact ih _ _
      · simp only [if_neg hmem, List.map_cons, List.nodup_cons, List.mem_cons]
        refine ⟨⟨?_, (ih _ _).1⟩, ?_⟩
        · intro hcontra
          exact ((ih _ (getPK (data.getD i default).ids sIdx :: seen)).2 _ hcontra)
            (List.mem_cons_self _ _)
        · rintro pk (rfl | hpk)
          · exact hmem
          · intro hcontra
            exact (ih _ (getPK (data.getD i default).ids sIdx :: seen)).2 _ hpk
              (List.mem_cons_of_mem _ hcontra)

/-- The retained rows of a query form a sublist of the full merge stream. -/
theorem retainedRows_sublist (data : List SearchResultData) (q topk offset : Nat) :
    (retainedRows data q topk offset).Sublist (mergeStream data q) :=
  ((List.drop_sublist _ _).trans (List.take_sublist _ _))

/-- Length of the retained rows of one query. -/
theorem retainedRows_length (data : List SearchResultData) (q topk offset : Nat) :
    (retainedRows data q topk offset).length
      = min topk (mergeStream data q).length - offset := by
  simp [retainedRows]

/-- The deduplicated candidate stream is no longer than the total number of
rows the partials hold for the query. -/
theorem mergeStream_length_le (data : List SearchResultData) (q : Nat) :
    (mergeStream data q).length ≤ totalRows data q :=
  mergeLoop_length_le data q _ _ _

theorem getD_map_range {α : Type} (f : Nat → α) (n q : Nat) (h : q < n) (d : α) :
    ((List.range n).map f).getD q d = f q := by
  rw [List.getD_eq_getElem?_getD, List.getElem?_map, List.getElem?_range h]
  rfl

theorem buildIds_size (pkType : PKType) (pks : List PK) :
    (buildIds pkType pks).size = pks.length := by
  cases pkType <;> simp [buildIds, IDs.size]

/-- When every partial's id variant matches the declared primary-key type,
the merge succeeds and its payload is assembled from the merged rows. -/
theorem reduce_eq_ok (data : List SearchResultData) (nq topk : Nat) (metricType : String)
    (pkType : PKType) (offset : Nat)
    (h : data.all (fun r => r.ids.matchesType pkType) = true) :
    reduceSearchResultData data nq topk metricType pkType offset = .ok {
      numQueries := nq
      topK := (mergedTopks data nq topk offset).getD (nq - 1) 0
      ids := buildIds pkType ((mergedRows data nq topk offset).map Prod.fst)
      scores :=
        if isDistanceMetric metricType then
          (mergedRows data nq topk offset).map (fun row => -row.2)
        else
          (mergedRows data nq topk offset).map (fun row => row.2)
      topks := mergedTopks data nq topk offset } := by
  simp [reduceSearchResultData, h]

theorem sum_intCast_lengths {α : Type} (l : List (List α)) :
    (l.map (fun x => ((x.length : Nat) : Int))).sum = ((l.flatten.length : Nat) : Int) := by
  induction l with
  | nil => simp
  | cons a t ih => simp [ih]

/-- The sum of the merged `topks` counts exactly the merged rows. -/
theorem mergedTopks_sum (data : List SearchResultData) (nq topk offset : Nat) :
    (mergedTopks data nq topk offset).sum = ((mergedRows data nq topk offset).length : Int) := by
  have h := sum_intCast_lengths ((List.range nq).map (fun q => retainedRows data q topk offset))
  simpa [mergedTopks, mergedRows, List.map_map, Function.comp] using h

/-- C1: under the distance-like metric L2 the merger emits candidates per
query in metric-aware best-first order and negates the scores it writes;
concretely, for the S1 inputs (two partials, nq = 1, topK = 4, P1 scores
[1.1, 0.9, 0.8, 0.5], P2 scores [1.2, 1.0, 0.7, 0.5]) the merged result is
ids = [12, 11, 10, 9] with scores = [-1.2, -1.1, -1.0, -0.9]. -/
theorem reduce_s1_l2_merged :
    reduceSearchResultData [partialS1P1, partialS1P2] 1 4 "L2" .int64Type 0 = .ok mergedS1 := by
  decide

/-- C2: a merge whose partials match the declared id type returns no error;
per query `q` the returned `topks[q]` equals the count of rows retained once
the first `offset` rows of the `topk`-row emission window are discarded
(never more than `topk - offset`, so offsetting shrinks the effective
limit); the returned `TopK` equals the retained count (of the last query);
and when `offset` is at least the total available rows of a query, that
query's `topks` entry is 0. -/
theorem reduce_offset_spec (data : List SearchResultData) (nq topk offset : Nat)
    (metricType : String) (pkType : PKType)
    (h : data.all (fun r => r.ids.matchesType pkType) = true) :
    ∃ r, reduceSearchResultData data nq topk metricType pkType offset = .ok r ∧
      (∀ q, q < nq →
        r.topks.getD q 0 = ((retainedRows data q topk offset).length : Int) ∧
        (retainedRows data q topk offset).length ≤ topk - offset ∧
        (totalRows data q ≤ offset → r.topks.getD q 0 = 0)) ∧
      (0 < nq → r.topK = ((retainedRows data (nq - 1) topk offset).length : Int)) := by
  refine ⟨_, reduce_eq_ok data nq topk metricType pkType offset h, ?_, ?_⟩
  · intro q hq
    have htop : (mergedTopks data nq topk offset).getD q 0
        = ((retainedRows data q topk offset).length : Int) := by
      unfold mergedTopks
      exact getD_map_range _ nq q hq 0
    refine ⟨htop, ?_, ?_⟩
    · rw [retainedRows_length]
      exact Nat.sub_le_sub_right (min_le_left _ _) offset
    · intro hoff
      have hzero : (retainedRows data q topk offset).length = 0 := by
        rw [retainedRows_length]
        exact Nat.sub_eq_zero_of_le
          (le_trans (le_trans (min_le_right _ _) (mergeStream_length_le data q)) hoff)
      show (mergedTopks data nq topk offset).getD q 0 = 0
      rw [htop, hzero]
      rfl
  · intro hnq
    show (mergedTopks data nq topk offset).getD (nq - 1) 0
        = ((retainedRows data (nq - 1) topk offset).length : Int)
    unfold mergedTopks
    exact getD_map_range _ nq (nq - 1) (Nat.sub_lt hnq Nat.one_pos) 0

/-- Witness for the merge offset behavior: the S1 partials at offset 2 merge
without error and retain 2 of the 4 window rows. -/
theorem reduce_offset_spec_witness :
    ∃ r, reduceSearchResultData [partialS1P1, partialS1P2] 1 4 "L2" PKType.int64Type 2 = .ok r ∧
      r.topks.getD 0 0 = 2 := by
  obtain ⟨r, hr, hq, -⟩ :=
    reduce_offset_spec [partialS1P1, partialS1P2] 1 4 2 "L2" PKType.int64Type (by decide)
  refine ⟨r, hr, ?_⟩
  rw [(hq 0 (by decide)).1]
  decide

/-- C3: every successful merge is well-formed: the merged id array's length
equals the sum of the merged `topks`, and every per-query `topks` entry is
at most the effective limit, the minimum of the requested `topk` and what
remains of the query's available rows after the offset. -/
theorem reduce_wellformed (data : List SearchResultData) (nq topk offset : Nat)
    (metricType : String) (pkType : PKType) (r : SearchResultData)
    (h : reduceSearchResultData data nq topk metricType pkType offset = .ok r) :
    (r.ids.size : Int) = r.topks.sum ∧
    ∀ q, q < nq → r.topks.getD q 0 ≤ ((min topk (totalRows data q - offset) : Nat) : Int) := by
  unfold reduceSearchResultData at h
  split at h
  · injection h with h'
    subst h'
    constructor
    · show ((buildIds pkType ((mergedRows data nq topk offset).map Prod.fst)).size : Int)
        = (mergedTopks data nq topk offset).sum
      rw [buildIds_size, List.length_map, mergedTopks_sum]
    · intro q hq
      show (mergedTopks data nq topk offset).getD q 0
        ≤ ((min topk (totalRows data q - offset) : Nat) : Int)
      have htop : (mergedTopks data nq topk offset).getD q 0
          = ((retainedRows data q topk offset).length : Int) := by
        unfold mergedTopks
        exact getD_map_range _ nq q hq 0
      rw [htop]
      have hnat : (retainedRows data q topk offset).length
          ≤ min topk (totalRows data q - offset) := by
        rw [retainedRows_length]
        refine le_min (le_trans (Nat.sub_le _ _) (min_le_left _ _)) ?_
        exact Nat.sub_le_sub_right
          (le_trans (min_le_right _ _) (mergeStream_length_le data q)) offset
      exact_mod_cast hnat
  · exact absurd h (by simp)

/-- Witness for the well-formedness of a successful merge, at the S1
inputs. -/
theorem reduce_wellformed_witness :
    (mergedS1.ids.size : Int) = mergedS1.topks.sum := by
  have h := reduce_wellformed [partialS1P1, partialS1P2] 1 4 0 "L2" PKType.int64Type mergedS1
    (by decide)
  exact h.1

/-- C4: the merged id list of every query is duplicate-free: a best
candidate whose id was already emitted for the query only advances its
partial's cursor, so the retained rows that form the merged id segment of
each query carry pairwise distinct ids. -/
theorem reduce_ids_nodup (data : List SearchResultData) (nq topk offset : Nat)
    (metricType : String) (pkType : PKType) (r : SearchResultData)
    (h : reduceSearchResultData data nq topk metricType pkType offset = .ok r) :
    r.ids = buildIds pkType ((mergedRows data nq topk offset).map Prod.fst) ∧
    ∀ q, ((retainedRows data q topk offset).map Prod.fst).Nodup := by
  constructor
  · unfold reduceSearchResultData at h
    split at h
    · injection h with h'
      subst h'
      rfl
    · exact absurd h (by simp)
  · intro q
    have hnodup : ((mergeStream data q).map Prod.fst).Nodup :=
      (mergeLoop_nodup data q (totalRows data q) (List.replicate data.length 0) []).1
    have hsub : ((retainedRows data q topk offset).map Prod.fst).Sublist
        ((mergeStream data q).map Prod.fst) :=
      (retainedRows_sublist data q topk offset).map Prod.fst
    exact hnodup.sublist hsub

/-- Witness for the per-query dedup law, at the S1 inputs. -/
theorem reduce_ids_nodup_witness :
    ((retainedRows [partialS1P1, partialS1P2] 0 4 0).map Prod.fst).Nodup := by
  have h := reduce_ids_nodup [partialS1P1, partialS1P2] 1 4 0 "L2" PKType.int64Type mergedS1
    (by decide)
  exact h.2 0

theorem findSome?_replicate_none {α β : Type} (n : Nat) (a : α) (f : α → Option β)
    (h : f a = none) : (List.replicate n a).findSome? f = none := by
  induction n with
  | zero => rfl
  | succ m ih => simp [List.replicate_succ, List.findSome?_cons, h, ih]

/-- A dispatch round whose every shard returns the same failing outcome
fails with that outcome's error. -/
theorem dispatchOnce_replicate_error (n : Nat) (hn : 0 < n) (o : SubSearchOutcome)
    (e : ExecError) (he : searchShardOutcome o = .error e) :
    dispatchOnce (List.replicate n o) = .error e := by
  obtain ⟨m, rfl⟩ := Nat.exists_eq_succ_of_ne_zero (Nat.pos_iff_ne_zero.mp hn)
  simp [dispatchOnce, List.replicate_succ, List.findSome?_cons, he]

/-- A dispatch round whose every shard succeeds succeeds. -/
theorem dispatchOnce_replicate_ok (n : Nat) (o : SubSearchOutcome)
    (ho : searchShardOutcome o = .ok ()) :
    dispatchOnce (List.replicate n o) = .ok () := by
  have h : (List.replicate n o).findSome? (fun o =>
      match searchShardOutcome o with
      | .error e => some e
      | .ok _ => none) = none :=
    findSome?_replicate_none n o _ (by rw [ho])
  simp [dispatchOnce, h]

/-- C5: a sub-search replying `NotShardLeader` surfaces exactly the sentinel
`errInvalidShardLeaders` from the dispatch round, and the task retries the
dispatch exactly once: persistent `NotShardLeader` ends with the sentinel
itself after the single retry (the second occurrence is terminal),
`NotShardLeader` followed by success succeeds, while an `UnexpectedError`
reply or a transport error fails the task with a non-sentinel error and no
retry. -/
theorem execute_notShardLeader_sentinel (n : Nat) (hn : 0 < n) (msg : String) :
    (∀ attempts : Nat → List SubSearchOutcome,
      (∀ k, attempts k = List.replicate n (.reply .NotShardLeader)) →
      executeDispatch attempts = (.error .invalidShardLeaders, 2)) ∧
    executeDispatch (fun k =>
        if k = 0 then List.replicate n (.reply .NotShardLeader)
        else List.replicate n (.reply .Success)) = (.ok (), 2) ∧
    (∀ attempts : Nat → List SubSearchOutcome,
      attempts 0 = List.replicate n (.reply .UnexpectedError) →
      executeDispatch attempts
        = (.error (.genericFailure "fail to search on QueryNode"), 1)) ∧
    (∀ attempts : Nat → List SubSearchOutcome,
      attempts 0 = List.replicate n (.transportFailure msg) →
      executeDispatch attempts = (.error (.genericFailure msg), 1)) := by
  have hnsl : searchShardOutcome (.reply .NotShardLeader) = .error .invalidShardLeaders := rfl
  have hsucc : searchShardOutcome (.reply .Success) = .ok () := rfl
  have hune : searchShardOutcome (.reply .UnexpectedError)
      = .error (.genericFailure "fail to search on QueryNode") := rfl
  have htr : searchShardOutcome (.transportFailure msg) = .error (.genericFailure msg) := rfl
  refine ⟨?_, ?_, ?_, ?_⟩
  · intro attempts hatt
    unfold executeDispatch
    rw [hatt 0, hatt 1, dispatchOnce_replicate_error n hn _ _ hnsl]
  · have he := dispatchOnce_replicate_error n hn _ _ hnsl
    have hs := dispatchOnce_replicate_ok n (SubSearchOutcome.reply .Success) hsucc
    simp [executeDispatch, he, hs]
  · intro attempts hatt
    unfold executeDispatch
    rw [hatt, dispatchOnce_replicate_error n hn _ _ hune]
  · intro attempts hatt
    unfold executeDispatch
    rw [hatt, dispatchOnce_replicate_error n hn _ _ htr]

/-- Witness for the dispatch retry behavior at two shards that keep replying
`NotShardLeader`. -/
theorem execute_notShardLeader_sentinel_witness :
    executeDispatch (fun _ => List.replicate 2 (.reply .NotShardLeader))
      = (.error .invalidShardLeaders, 2) :=
  (execute_notShardLeader_sentinel 2 (by decide) "mock error").1 _ (fun _ => rfl)

/-- Inversion of a successful topk extraction. -/
theorem parseTopK_ok (sp : List (String × String)) (t : Int) (h : parseTopK sp = .ok t) :
    ∃ s, getAttrByKey TopKKey sp = some s ∧ parseInt? s = some t ∧ ¬(t < 1 ∨ 16384 < t) := by
  unfold parseTopK at h
  cases hk : getAttrByKey TopKKey sp with
  | none => simp only [hk] at h; cases h
  | some s =>
    simp only [hk] at h
    cases hi : parseInt? s with
    | none => simp only [hi] at h; cases h
    | some t' =>
      simp only [hi] at h
      by_cases hb : t' < 1 ∨ 16384 < t'
      · rw [if_pos hb] at h; cases h
      · rw [if_neg hb] at h
        injection h with h'
        subst h'
        exact ⟨s, rfl, hi, hb⟩

/-- Inversion of a successful offset extraction. -/
theorem parseOffset_ok (sp : List (String × String)) (o : Int) (h : parseOffset sp = .ok o) :
    (getAttrByKey OffsetKey sp = none ∧ o = 0) ∨
    (∃ s, getAttrByKey OffsetKey sp = some s ∧ parseInt? s = some o ∧ ¬o < 0) := by
  unfold parseOffset at h
  cases hk : getAttrByKey OffsetKey sp with
  | none =>
    simp only [hk] at h
    injection h with h'
    exact Or.inl ⟨rfl, h'.symm⟩
  | some s =>
    simp only [hk] at h
    cases hi : parseInt? s with
    | none => simp only [hi] at h; cases h
    | some o' =>
      simp only [hi] at h
      by_cases hb : o' < 0
      · rw [if_pos hb] at h; cases h
      · rw [if_neg hb] at h
        injection h with h'
        subst h'
        exact Or.inr ⟨s, rfl, hi, hb⟩

/-- Inversion of a successful round-decimal extraction. -/
theorem parseRoundDecimal_ok (sp : List (String × String)) (rd : Int)
    (h : parseRoundDecimal sp = .ok rd) :
    getAttrByKey RoundDecimalKey sp = none ∨
    (∃ s, getAttrByKey RoundDecimalKey sp = some s ∧ parseInt? s = some rd ∧
      ¬(rd ≠ -1 ∧ (6 < rd ∨ rd < 0))) := by
  unfold parseRoundDecimal at h
  cases hk : getAttrByKey RoundDecimalKey sp with
  | none => exact Or.inl rfl
  | some s =>
    simp only [hk, Option.getD_some] at h
    cases hi : parseInt? s with
    | none => simp only [hi] at h; cases h
    | some rd' =>
      simp only [hi] at h
      by_cases hb : rd' ≠ -1 ∧ (6 < rd' ∨ rd' < 0)
      · rw [if_pos hb] at h; cases h
      · rw [if_neg hb] at h
        injection h with h'
        subst h'
        exact Or.inr ⟨s, rfl, hi, hb⟩

/-- Inversion of a successful `parseQueryInfo`. -/
theorem parseQueryInfo_ok (sp : List (String × String)) (x : QueryInfo × Int)
    (h : parseQueryInfo sp = .ok x) :
    ∃ t o, parseTopK sp = .ok t ∧ parseOffset sp = .ok o ∧ ¬(16384 < t + o) ∧
      ∃ rd, parseRoundDecimal sp = .ok rd := by
  unfold parseQueryInfo at h
  cases ht : parseTopK sp with
  | error e => simp only [ht] at h; cases h
  | ok t =>
    simp only [ht] at h
    cases ho : parseOffset sp with
    | error e => simp only [ho] at h; cases h
    | ok o =>
      simp only [ho] at h
      by_cases hsum : 16384 < t + o
      · rw [if_pos hsum] at h; cases h
      · rw [if_neg hsum] at h
        cases hm : getAttrByKey MetricTypeKey sp with
        | none => simp only [hm] at h; cases h
        | some metric =>
          simp only [hm] at h
          cases hp : getAttrByKey SearchParamsKey sp with
          | none => simp only [hp] at h; cases h
          | some sparams =>
            simp only [hp] at h
            cases hrd : parseRoundDecimal sp with
            | error e => simp only [hrd] at h; cases h
            | ok rd => exact ⟨t, o, rfl, rfl, hsum, rd, rfl⟩

/-- C6: `parseQueryInfo` rejects — returning an error, which in the Go
function comes with nil info and zero offset — every search-parameter list
whose `topk` is missing, non-integer or outside [1, 16384], whose `offset`
is non-integer or negative, whose `offset + topk` exceeds 16384, or whose
`round_decimal` is non-integer or outside [-1, 6]; and on the valid
parameter list of the source's test it succeeds and returns the supplied
offset 200.  The check is a pure parameter scan: no RPC is involved. -/
theorem parseQueryInfo_spec :
    (∀ sp, BadSearchParams sp → ∃ e, parseQueryInfo sp = .error e) ∧
    parseQueryInfo validSearchParamsOffset200 =
      .ok ({ topk := 210, metricType := "L2", searchParams := nprobeParams,
             roundDecimal := -1 }, 200) := by
  constructor
  · intro sp hbad
    cases hpq : parseQueryInfo sp with
    | error e => exact ⟨e, rfl⟩
    | ok x =>
      exfalso
      obtain ⟨t, o, ht, ho, hsum, rd, hrd⟩ := parseQueryInfo_ok sp x hpq
      obtain ⟨s, hks, hsi, hsb⟩ := parseTopK_ok sp t ht
      rcases hbad with hb | hb | hb | hb | hb | hb | hb | hb
      · rw [hks] at hb; cases hb
      · obtain ⟨s', h1, h2⟩ := hb
        rw [hks] at h1; injection h1 with h1'; subst h1'
        rw [hsi] at h2; cases h2
      · obtain ⟨s', t', h1, h2, h3⟩ := hb
        rw [hks] at h1; injection h1 with h1'; subst h1'
        rw [hsi] at h2; injection h2 with h2'; subst h2'
        exact hsb h3
      · obtain ⟨s', h1, h2⟩ := hb
        rcases parseOffset_ok sp o ho with ⟨hnone, -⟩ | ⟨s2, hk2, hi2, -⟩
        · rw [hnone] at h1; cases h1
        · rw [hk2] at h1; injection h1 with h1'; subst h1'
          rw [hi2] at h2; cases h2
      · obtain ⟨s', o', h1, h2, h3⟩ := hb
        rcases parseOffset_ok sp o ho with ⟨hnone, -⟩ | ⟨s2, hk2, hi2, hnb⟩
        · rw [hnone] at h1; cases h1
        · rw [hk2] at h1; injection h1 with h1'; subst h1'
          rw [hi2] at h2; injection h2 with h2'; subst h2'
          exact hnb h3
      · obtain ⟨s', u, t', o', h1, h2, h3, h4, h5⟩ := hb
        rw [hks] at h1; injection h1 with h1'; subst h1'
        rw [hsi] at h2; injection h2 with h2'; subst h2'
        rcases parseOffset_ok sp o ho with ⟨hnone, -⟩ | ⟨s2, hk2, hi2, -⟩
        · rw [hnone] at h3; cases h3
        · rw [hk2] at h3; injection h3 with h3'; subst h3'
          rw [hi2] at h4; injection h4 with h4'; subst h4'
          exact hsum h5
      · obtain ⟨s', h1, h2⟩ := hb
        rcases parseRoundDecimal_ok sp rd hrd with hnone | ⟨s3, hk3, hi3, -⟩
        · rw [hnone] at h1; cases h1
        · rw [hk3] at h1; injection h1 with h1'; subst h1'
          rw [hi3] at h2; cases h2
      · obtain ⟨s', rd', h1, h2, h3⟩ := hb
        rcases parseRoundDecimal_ok sp rd hrd with hnone | ⟨s3, hk3, hi3, hnb⟩
        · rw [hnone] at h1; cases h1
        · rw [hk3] at h1; injection h1 with h1'; subst h1'
          rw [hi3] at h2; injection h2 with h2'; subst h2'
          exact hnb h3
  · decide

/-- Witness for the rejection path of `parseQueryInfo`: the `spNoTopk`
parameter list of the source's test, whose `topk` key is missing. -/
theorem parseQueryInfo_spec_witness :
    ∃ e, parseQueryInfo spNoTopk = .error e :=
  parseQueryInfo_spec.1 spNoTopk (Or.inl (by decide))

/-- C7: called with an empty partition set while the cached collection info
is not marked loaded, `checkIfLoaded` returns `true` exactly when the
coordinator's successful reply reports at least one loaded partition and no
unloaded partitions, and in every other such case returns `false` without
an error. -/
theorem checkIfLoaded_empty_partitions (resp : ShowPartitionsResponse)
    (hst : resp.status = .Success) :
    (checkIfLoaded (.ok ⟨false⟩) (.ok resp) [] = .ok true ↔
      ((loadedPartitions resp).isEmpty = false ∧ (unloadedPartitions resp).isEmpty = true)) ∧
    ((loadedPartitions resp).isEmpty = true ∨ (unloadedPartitions resp).isEmpty = false →
      checkIfLoaded (.ok ⟨false⟩) (.ok resp) [] = .ok false) := by
  have hred : checkIfLoaded (.ok ⟨false⟩) (.ok resp) [] =
      .ok (!(loadedPartitions resp).isEmpty && (unloadedPartitions resp).isEmpty) := by
    unfold checkIfLoaded
    simp [hst]
  constructor
  · rw [hred]
    simp [Bool.and_eq_true, Bool.not_eq_true']
  · intro hcase
    rw [hred]
    rcases hcase with h | h <;> simp [h]

/-- Witness for the whole-collection load check: the "not fully loaded" case
of `Test_checkIfLoaded` — a successful reply listing partitions 1 and 2 with
no in-memory percentages yields `(false, nil)`. -/
theorem checkIfLoaded_empty_partitions_witness :
    checkIfLoaded (.ok ⟨false⟩) (.ok ⟨.Success, "", [1, 2], []⟩) [] = .ok false :=
  (checkIfLoaded_empty_partitions ⟨.Success, "", [1, 2], []⟩ rfl).2 (Or.inl rfl)

/-- C8 counterexample: the decoder accepts a payload whose `topks` length
differs from `nq`, so the claimed `topks` validation (length `nq`, entries
in `[0, topK]`) is not performed; this is the "correct params" payload of
`Test_checkSearchResultData`, whose `topks` is empty while `nq = 1` and
which the test expects to pass. -/
theorem checkSearchResultData_topks_unchecked :
    checkSearchResultData topksFreePayload 1 1 = .ok () ∧
    topksFreePayload.topks.length ≠ 1 := by
  exact ⟨rfl, by decide⟩

/-- C8 (amended): the result decoder verifies each partial result's shape
against the declared `(nq, topK)` — `numQueries = nq`, `topK` equals the
declared value, the id count of the active variant and the score count both
equal `nq · topK` — and exactly the violations of these four checks fail
the request; the `topks` field is not validated. -/
theorem checkSearchResultData_ok_iff (data : SearchResultData) (nq topk : Int) :
    checkSearchResultData data nq topk = .ok () ↔
      (data.numQueries = nq ∧ data.topK = topk ∧
       (data.ids.size : Int) = nq * topk ∧ (data.scores.length : Int) = nq * topk) := by
  unfold checkSearchResultData
  split_ifs with h1 h2 h3 h4 <;> simp_all

/-- All-empty collected results decode to nothing. -/
theorem decode_all_empty (collected : List SearchResults)
    (h : ∀ r ∈ collected, r.slicedBlob = none) :
    decodeSearchResults collected = [] := by
  induction collected with
  | nil => rfl
  | cons a t ih =>
    have ha : a.slicedBlob = none := h a (List.mem_cons_self a t)
    have ht : ∀ r ∈ t, r.slicedBlob = none := fun r hr => h r (List.mem_cons_of_mem a hr)
    simp [decodeSearchResults, List.filterMap_cons, ha]
    simpa [decodeSearchResults] using ih ht

/-- C9: when every collected partial result carries an empty/nil blob, the
decode step silently drops them all and `PostExecute` succeeds: the returned
search result carries status `Success` with the well-formed empty payload,
not an error. -/
theorem postExecute_all_empty (collected : List SearchResults) (nq topk : Nat)
    (metricType : String) (pkType : PKType) (offset : Nat)
    (h : ∀ r ∈ collected, r.slicedBlob = none) :
    postExecuteResult collected nq topk metricType pkType offset =
      .ok { status := .Success, results := emptySearchResultData nq } := by
  have hdec := decode_all_empty collected h
  simp [postExecuteResult, hdec]

/-- Witness for the empty-result path of `PostExecute`: the single empty
result of `TestSearchTask_PostExecute`. -/
theorem postExecute_all_empty_witness :
    postExecuteResult [{ status := .Success, slicedBlob := none }] 2 10 "L2"
      PKType.int64Type 0 =
      .ok { status := .Success, results := emptySearchResultData 2 } :=
  postExecute_all_empty [{ status := .Success, slicedBlob := none }] 2 10 "L2"
    PKType.int64Type 0 (by simp)

end MilvusProxy

namespace MilvusCommon

/-- C10: `IsCollectionNotExistError` returns true exactly on `statusError`
values whose code is `CollectionNotExists` or `UnexpectedError` — in
particular it accepts an `UnexpectedError`-coded status — and returns false
on every error value that is not a `statusError`. -/
theorem IsCollectionNotExistError_iff (e : GoError) :
    (IsCollectionNotExistError e = true ↔
      ∃ reason, e = .statusErr .CollectionNotExists reason ∨
        e = .statusErr .UnexpectedError reason) ∧
    ∀ msg, IsCollectionNotExistError (.otherErr msg) = false := by
  constructor
  · cases e with
    | statusErr code reason =>
      cases code <;>
        simp [IsCollectionNotExistError, collectionNotExistCodes, List.contains_cons]
    | otherErr m => simp [IsCollectionNotExistError]
  · intro msg
    rfl

end MilvusCommon
